import Mathlib

/-!
Verification of the Motion-Link landmark-to-skeleton retargeting pipeline.

The development shallowly embeds the core of the source (the `RiggedAvatar`
per-frame update, the `CyberLimb` / `SkeletonLine` / spine stretch-posing
routines, the `CyberHand` selection and mapping, and the `mapPoseToWorld`
coordinate mapper) as pure functions over rational-coordinate vectors.

Encoding conventions:
* Coordinates are rationals (`ℚ`).  The source's Euclidean `distanceTo`
  appears only (a) in comparisons against nonnegative thresholds, which are
  embedded as the equivalent comparisons of squared distance against the
  squared threshold (for `d, e ≥ 0`, `d < e ↔ d * d < e * e`), and (b) as
  the axial scale of a posed segment, which is embedded by its square in the
  field `scaleYSq` (the scale itself is the nonnegative square root, so
  equality / magnitude comparisons of scales correspond exactly to equality /
  comparisons of `scaleYSq`).
* A posed segment's orientation is the three.js look-at rotation pointing the
  object's forward axis from `position` toward a target, followed by a +90°
  rotation about the local X axis.  It is embedded symbolically by the
  `lookTarget` point together with `rotXOverPi` (the X-correction angle
  divided by π); two poses of elements at the same position have equal
  orientations iff these fields agree.
* JavaScript's `lm.z || 0` on an optional depth is embedded by `Option.getD 0`.
-/

namespace MotionLink

/-- World-space 3D vector (three.js `Vector3`) with rational coordinates. -/
structure Vec3 where
  x : ℚ
  y : ℚ
  z : ℚ
deriving DecidableEq

/-- `new Vector3().addVectors(a, b).multiplyScalar(0.5)` — the midpoint used by
every stretch-posing routine in the source. -/
def midpointV (a b : Vec3) : Vec3 :=
  ⟨(a.x + b.x) * (1/2), (a.y + b.y) * (1/2), (a.z + b.z) * (1/2)⟩

/-- three.js `a.distanceToSquared b`; the source's `a.distanceTo b` is its
nonnegative square root. -/
def distSq (a b : Vec3) : ℚ :=
  (a.x - b.x) * (a.x - b.x) + (a.y - b.y) * (a.y - b.y) + (a.z - b.z) * (a.z - b.z)

/-- three.js `p.lerp v alpha`: each coordinate moves by `alpha` of the way
from `p` toward `v`. -/
def lerpV (p v : Vec3) (alpha : ℚ) : Vec3 :=
  ⟨p.x + (v.x - p.x) * alpha, p.y + (v.y - p.y) * alpha, p.z + (v.z - p.z) * alpha⟩

/-- A MediaPipe normalized landmark `{x, y, z?}`; `z` may be absent. -/
structure Landmark where
  x : ℚ
  y : ℚ
  z : Option ℚ
deriving DecidableEq

/-- The source's `lm.z || 0`: an absent depth is read as `0`. -/
def zval (l : Landmark) : ℚ := l.z.getD 0

/-- `WORLD_HEIGHT = 2.0` in `mapPoseToWorld`. -/
def WORLD_HEIGHT : ℚ := 2

/-- `WORLD_WIDTH = 1.6` in `mapPoseToWorld`. -/
def WORLD_WIDTH : ℚ := 8/5

/-- The source's body coordinate mapper:
`y = (1 - lm.y) * WORLD_HEIGHT; x = (lm.x - 0.5) * -WORLD_WIDTH;
z = (lm.z || 0) * -0.8`. -/
def mapPoseToWorld (lm : Landmark) : Vec3 :=
  let y := (1 - lm.y) * WORLD_HEIGHT
  let x := (lm.x - 1/2) * (-WORLD_WIDTH)
  let z := zval lm * (-4/5)
  ⟨x, y, z⟩

/-- `LERP_SPEED = 0.8` in the `RiggedAvatar` frame callback. -/
def LERP_SPEED : ℚ := 4/5

/-- The per-joint blend step `update(ref, index)` of `RiggedAvatar`: if the
landmark at `index` is present, lerp the stored position toward its mapped
world target with `LERP_SPEED`; otherwise leave the stored position alone. -/
def updateJoint (lm : List Landmark) (index : ℕ) (p : Vec3) : Vec3 :=
  match lm.get? index with
  | some l => lerpV p (mapPoseToWorld l) LERP_SPEED
  | none => p

/-- The pose of one stretchable element: world position, symbolic look-at
orientation (`lookTarget`, `rotXOverPi`) and the square of the axial scale. -/
structure SegPose where
  position : Vec3
  lookTarget : Vec3
  rotXOverPi : ℚ
  scaleYSq : ℚ
deriving DecidableEq

/-- `CyberLimb`'s frame callback: skip (keep the previous pose) when
`dist < 0.01` — embedded as `distSq < (1/100)^2` — else pose at the midpoint,
look at `endP`, apply the +90° X correction, and scale Y by the distance. -/
def cyberLimbFrame (startP endP : Vec3) (prev : SegPose) : SegPose :=
  if distSq startP endP < 1/10000 then prev
  else ⟨midpointV startP endP, endP, 1/2, distSq startP endP⟩

/-- `SkeletonLine`'s frame callback: update only when `dist > 0.001` —
embedded as `(1/1000)^2 < distSq` — with the same midpoint / look-at /
X-correction / distance scale as the limb. -/
def skeletonLineFrame (s e : Vec3) (prev : SegPose) : SegPose :=
  if 1/1000000 < distSq s e then ⟨midpointV s e, e, 1/2, distSq s e⟩ else prev

/-- The spine update in `RiggedAvatar`'s frame callback: no degeneracy guard,
position at the midpoint of the two anchors, look at `shoulderMid`, +90° X
correction, and scale Y by `dist * 0.9` (so its square is `distSq * 0.81`). -/
def spineFrame (shoulderMid hipMid : Vec3) : SegPose :=
  ⟨midpointV shoulderMid hipMid, shoulderMid, 1/2,
   distSq shoulderMid hipMid * (81/100)⟩

/-- `HAND_SCALE = 1.0` in `CyberHand`. -/
def HAND_SCALE : ℚ := 1

/-- `CyberHand`'s hand-point mapping (spec contract `mapHandPoint`):
`dx = (lm.x - rawWrist.x) * -2.5 * HAND_SCALE;
dy = (rawWrist.y - lm.y) * 2.5 * HAND_SCALE;
dz = (lm.z || 0) * -2.5 * HAND_SCALE`, added to the pose-wrist anchor. -/
def mapHandPoint (lm rawWrist : Landmark) (poseWrist : Vec3) : Vec3 :=
  let dx := (lm.x - rawWrist.x) * (-5/2) * HAND_SCALE
  let dy := (rawWrist.y - lm.y) * (5/2) * HAND_SCALE
  let dz := zval lm * (-5/2) * HAND_SCALE
  ⟨poseWrist.x + dx, poseWrist.y + dy, poseWrist.z + dz⟩

/-- A MediaPipe handedness category: confidence score and laterality label. -/
structure Category where
  score : ℚ
  categoryName : String
deriving DecidableEq

/-- A `HandLandmarkerResult`: parallel arrays of per-hand landmark lists and
per-hand handedness category lists, aligned by index. -/
structure HandResults where
  landmarks : List (List Landmark)
  handedness : List (List Category)
deriving DecidableEq

/-- The selection loop of `CyberHand`: scan the parallel `landmarks` /
`handedness` arrays in order and return the first landmark list whose
handedness `[0].categoryName` equals the requested side.  (The source indexes
`handedness[i][0]` unconditionally; detections always carry a nonempty
category list, embedded here through `head?`.) -/
def selectHand : List (List Landmark) → List (List Category) → String → Option (List Landmark)
  | l :: ls, h :: hs, side =>
      if h.head?.map Category.categoryName = some side then some l
      else selectHand ls hs side
  | _, _, _ => none

/-- The fixed 25-connection adjacency list of `CyberHand`. -/
def connections : List (ℕ × ℕ) :=
  [(0,1),(1,2),(2,3),(3,4),
   (0,5),(5,6),(6,7),(7,8),
   (0,9),(9,10),(10,11),(11,12),
   (0,13),(13,14),(14,15),(15,16),
   (0,17),(17,18),(18,19),(19,20),
   (5,9),(9,13),(13,17),(0,5),(0,17)]

/-- Retained state of one hand sub-rig: group visibility plus the finger-bone
segment poses (the transforms held by the segment meshes). -/
structure HandState where
  visible : Bool
  bones : List SegPose
deriving DecidableEq

/-- The finger-bone update of `CyberHand`: map every landmark relative to the
hand's own wrist (index 0) onto the pose-wrist anchor, then pose one unguarded
stretch segment per connection. -/
def handBones (hl : List Landmark) (poseWrist : Vec3) : List SegPose :=
  let rawWrist := hl.head?.getD ⟨0, 0, none⟩
  let worldPoints := hl.map (fun lm => mapHandPoint lm rawWrist poseWrist)
  connections.map (fun c =>
    let s := (worldPoints.get? c.1).getD ⟨0, 0, 0⟩
    let e := (worldPoints.get? c.2).getD ⟨0, 0, 0⟩
    ⟨midpointV s e, e, 1/2, distSq s e⟩)

/-- `CyberHand`'s whole frame callback: select the requested side; when no
hand matches, hide the group and keep the retained bone poses; otherwise show
the group and recompute every bone pose from the fresh snapshot. -/
def cyberHandFrame (results : Option HandResults) (side : String)
    (poseWrist : Vec3) (st : HandState) : HandState :=
  match results.bind (fun r => selectHand r.landmarks r.handedness side) with
  | none => ⟨false, st.bones⟩
  | some hl => ⟨true, handBones hl poseWrist⟩

/-- A `PoseLandmarkerResult`: a list of per-subject landmark lists (the
source only reads `landmarks[0]`). -/
structure PoseResult where
  landmarks : List (List Landmark)
deriving DecidableEq

/-- The retained state of `RiggedAvatar`: the thirteen tracked joints plus
the two derived anchors. -/
structure AvatarState where
  nose : Vec3
  leftShoulder : Vec3
  rightShoulder : Vec3
  leftElbow : Vec3
  rightElbow : Vec3
  leftWrist : Vec3
  rightWrist : Vec3
  leftHip : Vec3
  rightHip : Vec3
  leftKnee : Vec3
  rightKnee : Vec3
  leftAnkle : Vec3
  rightAnkle : Vec3
  shoulderMid : Vec3
  hipMid : Vec3
deriving DecidableEq

/-- `RiggedAvatar`'s priority -1 frame callback: when the guard
`pose && pose.landmarks && pose.landmarks[0]` fails, nothing is touched;
otherwise every tracked joint is blended toward its mapped landmark and the
two derived anchors are recomputed from the just-updated joints. -/
def bodyFrame (pose : Option PoseResult) (s : AvatarState) : AvatarState :=
  match pose with
  | none => s
  | some p =>
    match p.landmarks.head? with
    | none => s
    | some lm =>
      let nose := updateJoint lm 0 s.nose
      let leftShoulder := updateJoint lm 11 s.leftShoulder
      let rightShoulder := updateJoint lm 12 s.rightShoulder
      let leftElbow := updateJoint lm 13 s.leftElbow
      let rightElbow := updateJoint lm 14 s.rightElbow
      let leftWrist := updateJoint lm 15 s.leftWrist
      let rightWrist := updateJoint lm 16 s.rightWrist
      let leftHip := updateJoint lm 23 s.leftHip
      let rightHip := updateJoint lm 24 s.rightHip
      let leftKnee := updateJoint lm 25 s.leftKnee
      let rightKnee := updateJoint lm 26 s.rightKnee
      let leftAnkle := updateJoint lm 27 s.leftAnkle
      let rightAnkle := updateJoint lm 28 s.rightAnkle
      let shoulderMid := midpointV leftShoulder rightShoulder
      let hipMid := midpointV leftHip rightHip
      ⟨nose, leftShoulder, rightShoulder, leftElbow, rightElbow, leftWrist,
       rightWrist, leftHip, rightHip, leftKnee, rightKnee, leftAnkle,
       rightAnkle, shoulderMid, hipMid⟩

/-! ### Helper lemmas -/

/-- Squared distance is nonnegative. -/
theorem distSq_nonneg (a b : Vec3) : 0 ≤ distSq a b := by
  unfold distSq
  have h1 := mul_self_nonneg (a.x - b.x)
  have h2 := mul_self_nonneg (a.y - b.y)
  have h3 := mul_self_nonneg (a.z - b.z)
  linarith

/-- Squared distance is symmetric. -/
theorem distSq_comm (a b : Vec3) : distSq a b = distSq b a := by
  unfold distSq; ring

/-- Squared distance from a point to itself vanishes. -/
theorem distSq_self (a : Vec3) : distSq a a = 0 := by
  unfold distSq; ring

/-- The midpoint is symmetric in its endpoints. -/
theorem midpointV_comm (a b : Vec3) : midpointV a b = midpointV b a := by
  unfold midpointV
  simp only [Vec3.mk.injEq]
  refine ⟨by ring, by ring, by ring⟩

/-- One blend step at `LERP_SPEED` contracts the squared distance to the
target by the factor `(1 - 4/5)^2 = 1/25`. -/
theorem distSq_lerp (p t : Vec3) :
    distSq (lerpV p t LERP_SPEED) t = (1/25) * distSq p t := by
  unfold distSq lerpV LERP_SPEED; ring

/-- A squared distance at least `1/10000` separates the endpoints. -/
theorem ne_of_distSq_ge (a b : Vec3) (h : 1/10000 ≤ distSq a b) : a ≠ b := by
  intro he
  rw [he, distSq_self] at h
  norm_num at h

/-! ### Claim theorems -/

/-- Claim C1: for a static target (a fixed landmark list with the joint's
index present) and any initial stored position, repeated application of the
per-joint blend step (`updateJoint`, linear interpolation toward the mapped
target with fixed factor `LERP_SPEED = 0.8`) makes the distance from the
stored position to the mapped target non-increasing from frame to frame.
Distance is embedded by its square; the square root is monotone on
nonnegatives, so squared-distance monotonicity is distance monotonicity. -/
theorem joint_blend_dist_nonincreasing (lm : List Landmark) (index : ℕ)
    (l : Landmark) (h : lm.get? index = some l) (p : Vec3) (n : ℕ) :
    distSq ((fun q => updateJoint lm index q)^[n + 1] p) (mapPoseToWorld l)
      ≤ distSq ((fun q => updateJoint lm index q)^[n] p) (mapPoseToWorld l) := by
  rw [Function.iterate_succ_apply']
  have hstep : ∀ q : Vec3,
      updateJoint lm index q = lerpV q (mapPoseToWorld l) LERP_SPEED := by
    intro q
    unfold updateJoint
    rw [h]
  rw [hstep]
  rw [distSq_lerp]
  have hnn := distSq_nonneg ((fun q => updateJoint lm index q)^[n] p) (mapPoseToWorld l)
  linarith

/-- Witness for C1 at a concrete landmark list, joint index, start position
and frame number. -/
theorem joint_blend_dist_nonincreasing_witness :
    ([(⟨0, 0, none⟩ : Landmark)].get? 0 = some ⟨0, 0, none⟩) ∧
    distSq ((fun q => updateJoint [⟨0, 0, none⟩] 0 q)^[0 + 1] ⟨1, 1, 1⟩)
        (mapPoseToWorld ⟨0, 0, none⟩)
      ≤ distSq ((fun q => updateJoint [⟨0, 0, none⟩] 0 q)^[0] ⟨1, 1, 1⟩)
        (mapPoseToWorld ⟨0, 0, none⟩) :=
  ⟨rfl, joint_blend_dist_nonincreasing [⟨0, 0, none⟩] 0 ⟨0, 0, none⟩ rfl ⟨1, 1, 1⟩ 0⟩

/-- Claim C2: on a frame with no body snapshot, the whole-pose update is
skipped — every tracked joint and both derived anchors end the frame exactly
equal to their previous values. -/
theorem bodyFrame_absent_freezes (s : AvatarState) : bodyFrame none s = s := rfl

/-- Counterexample to Claim C3 as stated: at endpoints `(0,0,0)` and
`(0.005,0,0)` (distance `0.005`, between the two routines' thresholds) with
the same prior pose, `CyberLimb` skips its update (distance below its `0.01`
epsilon) while `SkeletonLine` updates (distance above its `0.001` epsilon),
so the two routines produce different poses for identical endpoint pairs. -/
theorem limb_line_pose_differs :
    cyberLimbFrame ⟨0, 0, 0⟩ ⟨1/200, 0, 0⟩ ⟨⟨9, 9, 9⟩, ⟨9, 9, 9⟩, 0, 0⟩
      ≠ skeletonLineFrame ⟨0, 0, 0⟩ ⟨1/200, 0, 0⟩ ⟨⟨9, 9, 9⟩, ⟨9, 9, 9⟩, 0, 0⟩ := by
  have h1 : cyberLimbFrame ⟨0, 0, 0⟩ ⟨1/200, 0, 0⟩ ⟨⟨9, 9, 9⟩, ⟨9, 9, 9⟩, 0, 0⟩
      = ⟨⟨9, 9, 9⟩, ⟨9, 9, 9⟩, 0, 0⟩ := by
    unfold cyberLimbFrame
    rw [if_pos (by norm_num [distSq])]
  have h2 : skeletonLineFrame ⟨0, 0, 0⟩ ⟨1/200, 0, 0⟩ ⟨⟨9, 9, 9⟩, ⟨9, 9, 9⟩, 0, 0⟩
      = ⟨midpointV ⟨0, 0, 0⟩ ⟨1/200, 0, 0⟩, ⟨1/200, 0, 0⟩, 1/2,
         distSq ⟨0, 0, 0⟩ ⟨1/200, 0, 0⟩⟩ := by
    unfold skeletonLineFrame
    rw [if_pos (by norm_num [distSq])]
  rw [h1, h2]
  intro hco
  have hrot := congrArg SegPose.rotXOverPi hco
  norm_num at hrot

/-- Claim C3 (amended): the three stretchable elements share the
midpoint-position / look-at / +90° X-correction core but are not one
identical computation: their degeneracy thresholds differ (`CyberLimb` skips
below distance `0.01`, `SkeletonLine` below `0.001`, the spine never skips)
and the spine scales by `0.9 ×` distance instead of the distance.  For
endpoint pairs at distance `≥ 0.01` the limb and debug-line poses coincide
exactly, and the spine pose agrees with the debug line posed from hip-mid
toward shoulder-mid in position, look target and X correction, its squared
scale being `0.81 ×` the line's. -/
theorem stretch_routines_shared_core (s e sm hm : Vec3) (prev prev2 : SegPose)
    (h1 : 1/10000 ≤ distSq s e) (h2 : 1/10000 ≤ distSq sm hm) :
    cyberLimbFrame s e prev = skeletonLineFrame s e prev2 ∧
    (spineFrame sm hm).position = (skeletonLineFrame hm sm prev2).position ∧
    (spineFrame sm hm).lookTarget = (skeletonLineFrame hm sm prev2).lookTarget ∧
    (spineFrame sm hm).rotXOverPi = (skeletonLineFrame hm sm prev2).rotXOverPi ∧
    (spineFrame sm hm).scaleYSq = (81/100) * (skeletonLineFrame hm sm prev2).scaleYSq := by
  have hline : (1 : ℚ)/1000000 < distSq s e := by linarith
  have hline2 : (1 : ℚ)/1000000 < distSq hm sm := by
    rw [distSq_comm]; linarith
  have hlimb : ¬ distSq s e < 1/10000 := not_lt.mpr h1
  unfold cyberLimbFrame skeletonLineFrame spineFrame
  rw [if_neg hlimb, if_pos hline, if_pos hline2]
  refine ⟨rfl, midpointV_comm sm hm, rfl, rfl, ?_⟩
  show distSq sm hm * (81/100) = 81/100 * distSq hm sm
  rw [distSq_comm sm hm]
  ring

/-- Witness for the amended C3 at concrete endpoints of distance `1` (limb
and line) and distance `0.6` (spine anchors). -/
theorem stretch_routines_shared_core_witness :
    ((1 : ℚ)/10000 ≤ distSq ⟨0, 0, 0⟩ ⟨1, 0, 0⟩) ∧
    ((1 : ℚ)/10000 ≤ distSq ⟨0, 3/2, 0⟩ ⟨0, 9/10, 0⟩) ∧
    (cyberLimbFrame ⟨0, 0, 0⟩ ⟨1, 0, 0⟩ ⟨⟨0, 0, 0⟩, ⟨0, 0, 0⟩, 0, 0⟩
        = skeletonLineFrame ⟨0, 0, 0⟩ ⟨1, 0, 0⟩ ⟨⟨0, 0, 0⟩, ⟨0, 0, 0⟩, 0, 0⟩ ∧
      (spineFrame ⟨0, 3/2, 0⟩ ⟨0, 9/10, 0⟩).position
        = (skeletonLineFrame ⟨0, 9/10, 0⟩ ⟨0, 3/2, 0⟩ ⟨⟨0, 0, 0⟩, ⟨0, 0, 0⟩, 0, 0⟩).position ∧
      (spineFrame ⟨0, 3/2, 0⟩ ⟨0, 9/10, 0⟩).lookTarget
        = (skeletonLineFrame ⟨0, 9/10, 0⟩ ⟨0, 3/2, 0⟩ ⟨⟨0, 0, 0⟩, ⟨0, 0, 0⟩, 0, 0⟩).lookTarget ∧
      (spineFrame ⟨0, 3/2, 0⟩ ⟨0, 9/10, 0⟩).rotXOverPi
        = (skeletonLineFrame ⟨0, 9/10, 0⟩ ⟨0, 3/2, 0⟩ ⟨⟨0, 0, 0⟩, ⟨0, 0, 0⟩, 0, 0⟩).rotXOverPi ∧
      (spineFrame ⟨0, 3/2, 0⟩ ⟨0, 9/10, 0⟩).scaleYSq
        = (81/100) * (skeletonLineFrame ⟨0, 9/10, 0⟩ ⟨0, 3/2, 0⟩ ⟨⟨0, 0, 0⟩, ⟨0, 0, 0⟩, 0, 0⟩).scaleYSq) :=
  ⟨by norm_num [distSq], by norm_num [distSq],
   stretch_routines_shared_core ⟨0, 0, 0⟩ ⟨1, 0, 0⟩ ⟨0, 3/2, 0⟩ ⟨0, 9/10, 0⟩
     ⟨⟨0, 0, 0⟩, ⟨0, 0, 0⟩, 0, 0⟩ ⟨⟨0, 0, 0⟩, ⟨0, 0, 0⟩, 0, 0⟩
     (by norm_num [distSq]) (by norm_num [distSq])⟩

/-- Counterexample to Claim C4 as stated: the claim makes every world
coordinate `a` plus a fixed scale times the signed difference of `l` and `w`
on that axis, so with `l = w` (all differences zero) the result must be `a`
itself for any scales.  At `l = w = {x:0, y:0, z:1}` and anchor `(0,0,0)` the
code instead returns `z = -2.5` — the z offset uses the landmark's own depth,
not its difference from the wrist's depth. -/
theorem mapHandPoint_z_not_difference :
    mapHandPoint ⟨0, 0, some 1⟩ ⟨0, 0, some 1⟩ ⟨0, 0, 0⟩ ≠ (⟨0, 0, 0⟩ : Vec3) := by
  intro hco
  have hz := congrArg Vec3.z hco
  norm_num [mapHandPoint, zval, HAND_SCALE] at hz

/-- Claim C4 (amended): on the x and y axes the hand mapping returns the
anchor coordinate plus the fixed inverted magnification `-2.5` times the
signed difference of landmark and wrist; on the z axis it returns the anchor
coordinate plus `-2.5` times the landmark's own depth (absent depth read as
`0`), with the reference wrist's depth not subtracted. -/
theorem mapHandPoint_formula (l w : Landmark) (a : Vec3) :
    mapHandPoint l w a
      = ⟨a.x + (-5/2) * (l.x - w.x), a.y + (-5/2) * (l.y - w.y),
         a.z + (-5/2) * zval l⟩ := by
  unfold mapHandPoint HAND_SCALE
  simp only [Vec3.mk.injEq]
  refine ⟨by ring, by ring, by ring⟩

/-- Claim C5: whenever the two endpoints are closer than the degeneracy
epsilon `0.01` (embedded as `distSq < (1/100)^2`), `CyberLimb`'s posing
routine performs no update: the previously output pose — position,
orientation and scale — is returned unchanged, for any prior pose.  The
exact case of coincident endpoints satisfies the hypothesis since
`distSq p p = 0`. -/
theorem poseSegment_degenerate_freeze (s e : Vec3) (prev : SegPose)
    (h : distSq s e < 1/10000) : cyberLimbFrame s e prev = prev := by
  unfold cyberLimbFrame
  rw [if_pos h]

/-- Witness for C5 at the coincident-endpoint case `poseSegment(p, p)` with
an arbitrary concrete prior pose. -/
theorem poseSegment_degenerate_freeze_witness :
    (distSq ⟨1, 2, 3⟩ ⟨1, 2, 3⟩ < 1/10000) ∧
    cyberLimbFrame ⟨1, 2, 3⟩ ⟨1, 2, 3⟩ ⟨⟨4, 5, 6⟩, ⟨7, 8, 9⟩, 1/2, 10⟩
      = ⟨⟨4, 5, 6⟩, ⟨7, 8, 9⟩, 1/2, 10⟩ :=
  ⟨by norm_num [distSq],
   poseSegment_degenerate_freeze ⟨1, 2, 3⟩ ⟨1, 2, 3⟩ ⟨⟨4, 5, 6⟩, ⟨7, 8, 9⟩, 1/2, 10⟩
     (by norm_num [distSq])⟩

/-- Claim C6: for endpoints at distance at least the epsilon, posing `(a, b)`
and `(b, a)` yields the same midpoint position and the same scale magnitude
(equal squared scales), while each call's orientation looks toward its second
argument — and the two look targets differ, so the orientations do. -/
theorem poseSegment_swap (a b : Vec3) (prev : SegPose)
    (h : 1/10000 ≤ distSq a b) :
    (cyberLimbFrame a b prev).position = (cyberLimbFrame b a prev).position ∧
    (cyberLimbFrame a b prev).scaleYSq = (cyberLimbFrame b a prev).scaleYSq ∧
    (cyberLimbFrame a b prev).lookTarget = b ∧
    (cyberLimbFrame b a prev).lookTarget = a ∧
    (cyberLimbFrame a b prev).lookTarget ≠ (cyberLimbFrame b a prev).lookTarget := by
  have hab : ¬ distSq a b < 1/10000 := not_lt.mpr h
  have hba : ¬ distSq b a < 1/10000 := by rw [distSq_comm]; exact hab
  have hne : a ≠ b := ne_of_distSq_ge a b h
  unfold cyberLimbFrame
  rw [if_neg hab, if_neg hba]
  refine ⟨midpointV_comm a b, distSq_comm a b, rfl, rfl, ?_⟩
  simpa using hne.symm

/-- Witness for C6 at concrete endpoints of distance `1`. -/
theorem poseSegment_swap_witness :
    ((1 : ℚ)/10000 ≤ distSq ⟨0, 0, 0⟩ ⟨1, 0, 0⟩) ∧
    ((cyberLimbFrame ⟨0, 0, 0⟩ ⟨1, 0, 0⟩ ⟨⟨0, 0, 0⟩, ⟨0, 0, 0⟩, 0, 0⟩).position
        = (cyberLimbFrame ⟨1, 0, 0⟩ ⟨0, 0, 0⟩ ⟨⟨0, 0, 0⟩, ⟨0, 0, 0⟩, 0, 0⟩).position ∧
      (cyberLimbFrame ⟨0, 0, 0⟩ ⟨1, 0, 0⟩ ⟨⟨0, 0, 0⟩, ⟨0, 0, 0⟩, 0, 0⟩).scaleYSq
        = (cyberLimbFrame ⟨1, 0, 0⟩ ⟨0, 0, 0⟩ ⟨⟨0, 0, 0⟩, ⟨0, 0, 0⟩, 0, 0⟩).scaleYSq ∧
      (cyberLimbFrame ⟨0, 0, 0⟩ ⟨1, 0, 0⟩ ⟨⟨0, 0, 0⟩, ⟨0, 0, 0⟩, 0, 0⟩).lookTarget = ⟨1, 0, 0⟩ ∧
      (cyberLimbFrame ⟨1, 0, 0⟩ ⟨0, 0, 0⟩ ⟨⟨0, 0, 0⟩, ⟨0, 0, 0⟩, 0, 0⟩).lookTarget = ⟨0, 0, 0⟩ ∧
      (cyberLimbFrame ⟨0, 0, 0⟩ ⟨1, 0, 0⟩ ⟨⟨0, 0, 0⟩, ⟨0, 0, 0⟩, 0, 0⟩).lookTarget
        ≠ (cyberLimbFrame ⟨1, 0, 0⟩ ⟨0, 0, 0⟩ ⟨⟨0, 0, 0⟩, ⟨0, 0, 0⟩, 0, 0⟩).lookTarget) :=
  ⟨by norm_num [distSq],
   poseSegment_swap ⟨0, 0, 0⟩ ⟨1, 0, 0⟩ ⟨⟨0, 0, 0⟩, ⟨0, 0, 0⟩, 0, 0⟩ (by norm_num [distSq])⟩

/-- Claim C7: with one snapshot labeled "Left" and one labeled "Right", in
either array order, `selectHand` with requested side "Right" returns the
"Right"-labeled landmark list (and symmetrically for "Left"); and when no
snapshot carries the requested label, the sub-rig frame marks the group
not-visible and leaves its retained bone state unchanged. -/
theorem selectHand_side_pure (L R : List Landmark) (sL sR : ℚ) (w : Vec3)
    (st : HandState) (r : HandResults)
    (h : selectHand r.landmarks r.handedness "Right" = none) :
    selectHand [L, R] [[⟨sL, "Left"⟩], [⟨sR, "Right"⟩]] "Right" = some R ∧
    selectHand [R, L] [[⟨sR, "Right"⟩], [⟨sL, "Left"⟩]] "Right" = some R ∧
    selectHand [L, R] [[⟨sL, "Left"⟩], [⟨sR, "Right"⟩]] "Left" = some L ∧
    selectHand [R, L] [[⟨sR, "Right"⟩], [⟨sL, "Left"⟩]] "Left" = some L ∧
    (cyberHandFrame (some r) "Right" w st).visible = false ∧
    (cyberHandFrame (some r) "Right" w st).bones = st.bones := by
  refine ⟨?_, ?_, ?_, ?_, ?_, ?_⟩
  · simp [selectHand]
  · simp [selectHand]
  · simp [selectHand]
  · simp [selectHand]
  · unfold cyberHandFrame
    rw [Option.some_bind, h]
  · unfold cyberHandFrame
    rw [Option.some_bind, h]

/-- Witness for C7 with concrete landmark lists, scores and an empty
detection set for the no-match branch. -/
theorem selectHand_side_pure_witness :
    (selectHand (HandResults.mk [] []).landmarks (HandResults.mk [] []).handedness "Right" = none) ∧
    (selectHand [[⟨0, 0, none⟩], [⟨1, 1, none⟩]]
        [[⟨1/2, "Left"⟩], [⟨3/4, "Right"⟩]] "Right" = some [⟨1, 1, none⟩] ∧
      selectHand [[⟨1, 1, none⟩], [⟨0, 0, none⟩]]
        [[⟨3/4, "Right"⟩], [⟨1/2, "Left"⟩]] "Right" = some [⟨1, 1, none⟩] ∧
      selectHand [[⟨0, 0, none⟩], [⟨1, 1, none⟩]]
        [[⟨1/2, "Left"⟩], [⟨3/4, "Right"⟩]] "Left" = some [⟨0, 0, none⟩] ∧
      selectHand [[⟨1, 1, none⟩], [⟨0, 0, none⟩]]
        [[⟨3/4, "Right"⟩], [⟨1/2, "Left"⟩]] "Left" = some [⟨0, 0, none⟩] ∧
      (cyberHandFrame (some (HandResults.mk [] [])) "Right" ⟨0, 0, 0⟩ ⟨true, []⟩).visible = false ∧
      (cyberHandFrame (some (HandResults.mk [] [])) "Right" ⟨0, 0, 0⟩ ⟨true, []⟩).bones
        = (⟨true, []⟩ : HandState).bones) :=
  ⟨rfl,
   selectHand_side_pure [⟨0, 0, none⟩] [⟨1, 1, none⟩] (1/2) (3/4) ⟨0, 0, 0⟩
     ⟨true, []⟩ (HandResults.mk [] []) rfl⟩

/-- Claim C8: the body point mapping is a deterministic stateless function of
one landmark: world y is `(1 - landmark y) * WORLD_HEIGHT`, world x centers
the horizontal axis at the `0.5` midline scaled by `WORLD_WIDTH` (mirrored),
world z applies the fixed depth scale `-0.8`, and an absent z maps exactly
like `z = 0`. -/
theorem mapPoseToWorld_formula (lm : Landmark) (x y : ℚ) :
    mapPoseToWorld lm
      = ⟨(lm.x - 1/2) * (-WORLD_WIDTH), (1 - lm.y) * WORLD_HEIGHT,
         zval lm * (-4/5)⟩ ∧
    mapPoseToWorld ⟨x, y, none⟩ = mapPoseToWorld ⟨x, y, some 0⟩ :=
  ⟨rfl, rfl⟩

/-- Helper for C10: `selectHand` reads the handedness entries only through
their heads' `categoryName`, so two handedness arrays with the same label
structure select identically. -/
theorem selectHand_congr (ls : List (List Landmark))
    (hs1 hs2 : List (List Category)) (side : String)
    (h : hs1.map (List.map Category.categoryName)
        = hs2.map (List.map Category.categoryName)) :
    selectHand ls hs1 side = selectHand ls hs2 side := by
  induction hs1 generalizing hs2 ls with
  | nil =>
    have h2 : hs2 = [] := by
      have := h.symm
      simpa using this
    subst h2
    rfl
  | cons c1 t1 ih =>
    cases hs2 with
    | nil => simp at h
    | cons c2 t2 =>
      simp only [List.map_cons, List.cons.injEq] at h
      obtain ⟨hhead, htail⟩ := h
      cases ls with
      | nil => rfl
      | cons l lrest =>
        have hc : c1.head?.map Category.categoryName
            = c2.head?.map Category.categoryName := by
          rw [← List.head?_map, ← List.head?_map, hhead]
        simp only [selectHand]
        rw [hc]
        by_cases hside : c2.head?.map Category.categoryName = some side
        · rw [if_pos hside, if_pos hside]
        · rw [if_neg hside, if_neg hside]
          exact ih lrest t2 htail

/-- Claim C10: hand selection and posing are noninterferent with respect to
confidence scores — two detection sets agreeing on landmark arrays and
laterality labels but with arbitrary scores yield the identical hand choice,
visibility, and bone poses; no score is ever consulted. -/
theorem hand_frame_score_noninterference (r1 r2 : HandResults) (side : String)
    (w : Vec3) (st : HandState)
    (hl : r1.landmarks = r2.landmarks)
    (hh : r1.handedness.map (List.map Category.categoryName)
        = r2.handedness.map (List.map Category.categoryName)) :
    cyberHandFrame (some r1) side w st = cyberHandFrame (some r2) side w st := by
  have hsel : selectHand r1.landmarks r1.handedness side
      = selectHand r2.landmarks r2.handedness side := by
    rw [hl]
    exact selectHand_congr r2.landmarks r1.handedness r2.handedness side hh
  unfold cyberHandFrame
  rw [Option.some_bind, Option.some_bind, hsel]

/-- Witness for C10: two one-hand detection sets identical except for the
handedness confidence score (`0.5` versus `0.9`) produce the same frame
output. -/
theorem hand_frame_score_noninterference_witness :
    ((HandResults.mk [[⟨0, 0, none⟩]] [[⟨1/2, "Right"⟩]]).landmarks
        = (HandResults.mk [[⟨0, 0, none⟩]] [[⟨9/10, "Right"⟩]]).landmarks) ∧
    ((HandResults.mk [[⟨0, 0, none⟩]] [[⟨1/2, "Right"⟩]]).handedness.map
          (List.map Category.categoryName)
        = (HandResults.mk [[⟨0, 0, none⟩]] [[⟨9/10, "Right"⟩]]).handedness.map
          (List.map Category.categoryName)) ∧
    cyberHandFrame (some (HandResults.mk [[⟨0, 0, none⟩]] [[⟨1/2, "Right"⟩]]))
        "Right" ⟨0, 0, 0⟩ ⟨false, []⟩
      = cyberHandFrame (some (HandResults.mk [[⟨0, 0, none⟩]] [[⟨9/10, "Right"⟩]]))
        "Right" ⟨0, 0, 0⟩ ⟨false, []⟩ :=
  ⟨rfl, rfl,
   hand_frame_score_noninterference (HandResults.mk [[⟨0, 0, none⟩]] [[⟨1/2, "Right"⟩]])
     (HandResults.mk [[⟨0, 0, none⟩]] [[⟨9/10, "Right"⟩]]) "Right" ⟨0, 0, 0⟩
     ⟨false, []⟩ rfl rfl⟩

/-- Claim C9: with shoulders tracked at `(-0.2, 1.5, 0)` / `(0.2, 1.5, 0)`
and hips at `(-0.1, 0.9, 0)` / `(0.1, 0.9, 0)`, the derived shoulder midpoint
is `(0, 1.5, 0)`, the derived hip midpoint is `(0, 0.9, 0)`, and the spine's
axial scale is `0.54` (squared scale `(27/50)^2`, i.e. the `0.6` midpoint
distance times the fixed `0.9` factor). -/
theorem scenario_midpoints_spine_scale :
    midpointV ⟨-1/5, 3/2, 0⟩ ⟨1/5, 3/2, 0⟩ = ⟨0, 3/2, 0⟩ ∧
    midpointV ⟨-1/10, 9/10, 0⟩ ⟨1/10, 9/10, 0⟩ = ⟨0, 9/10, 0⟩ ∧
    (spineFrame (midpointV ⟨-1/5, 3/2, 0⟩ ⟨1/5, 3/2, 0⟩)
        (midpointV ⟨-1/10, 9/10, 0⟩ ⟨1/10, 9/10, 0⟩)).scaleYSq
      = (27/50) * (27/50) := by
  refine ⟨?_, ?_, ?_⟩
  · simp only [midpointV, Vec3.mk.injEq]
    norm_num
  · simp only [midpointV, Vec3.mk.injEq]
    norm_num
  · simp only [spineFrame, midpointV, distSq]
    norm_num

end MotionLink
